import Mathlib

/-!
Shallow embedding of the diy-chatgpt session context/caching engine.

The definitions below translate, operation by operation, the JavaScript
modules `backend/services/storage/database.js` (PostgreSQL metadata index),
`backend/services/storage/fileStorage.js` (filesystem content store),
`backend/services/session.js` (session service) and the summarizer service
(`SummarizerService`), together with the session settings from the database
configuration module.

Modelling conventions:
- every SQL statement (a single `pool.query` call) is one atomic state
  transition; each `await` boundary between statements is an observable
  intermediate state, which some operations expose in a `trace` field;
- timestamps (`Date.now()`) are natural numbers, milliseconds since epoch;
- uuids are natural numbers supplied by the caller (the JS code generates
  them with `uuidv4()`);
- a PostgreSQL foreign-key violation on a missing parent row is modelled as
  `Except.error DbError.notFound`;
- external calls (the OpenAI generation backend) are modelled as an
  `Except`-valued input: `Except.ok` is the response, `Except.error` a
  thrown/failed call.
-/

inductive Role
  | user
  | assistant
  | system
deriving DecidableEq, Repr

/-- A row of the `sessions` table (database.js `createSchema`). -/
structure SessionRec where
  id : Nat
  title : Option String
  createdAt : Nat
  updatedAt : Nat
  lastActivityAt : Nat
  currentSummaryId : Option Nat
  metadata : Option String
deriving DecidableEq, Repr

/-- A row of the `messages` table: only references, no content. -/
structure MessageRec where
  id : Nat
  sessionId : Nat
  role : Role
  filePath : String
  tokens : Nat
  isSummarized : Bool
  createdAt : Nat
deriving DecidableEq, Repr

/-- A row of the `summaries` table. -/
structure SummaryRec where
  id : Nat
  sessionId : Nat
  filePath : String
  tokens : Nat
  coversUntilMessageId : Option Nat
  createdAt : Nat
deriving DecidableEq, Repr

/-- The metadata index (the PostgreSQL database of database.js).
Row order in each list is insertion order. -/
structure Database where
  sessions : List SessionRec
  messages : List MessageRec
  summaries : List SummaryRec
deriving DecidableEq, Repr

/-- The JSON blob written by `FileStorage.saveMessage`
(`data/sessions/{sessionId}/messages/{messageId}.json`). -/
structure MsgFile where
  id : Nat
  sessionId : Nat
  role : Role
  content : String
  toolUsed : Option String
  sources : Option String
  metadata : Option String
  createdAt : Nat
deriving DecidableEq, Repr

/-- The JSON blob written by `FileStorage.saveSummary`
(`data/sessions/{sessionId}/summaries/{summaryId}.json`). -/
structure SumFile where
  id : Nat
  sessionId : Nat
  summary : String
  coveredMessageIds : List Nat
  tokens : Nat
  createdAt : Nat
deriving DecidableEq, Repr

/-- The content store (fileStorage.js): two keyed families of JSON files,
keyed by (sessionId, contentId). A write prepends; `List.lookup` returns the
first hit, so overwriting a key is last-write-wins, as for a file. -/
structure FileStorage where
  messageFiles : List ((Nat × Nat) × MsgFile)
  summaryFiles : List ((Nat × Nat) × SumFile)
deriving DecidableEq, Repr

/-- `FileStorage.getMessagePath`, relativized as stored via `getRelativePath`. -/
def FileStorage.getMessagePath (sessionId messageId : Nat) : String :=
  toString sessionId ++ "/messages/" ++ toString messageId ++ ".json"

/-- `FileStorage.getSummaryPath`, relativized as stored via `getRelativePath`. -/
def FileStorage.getSummaryPath (sessionId summaryId : Nat) : String :=
  toString sessionId ++ "/summaries/" ++ toString summaryId ++ ".json"

/-- `FileStorage.saveMessage`: write the message JSON blob (fs.writeFile). -/
def FileStorage.saveMessage (fs : FileStorage) (sessionId messageId : Nat)
    (role : Role) (content : String) (toolUsed sources metadata : Option String)
    (createdAt : Nat) : FileStorage :=
  { fs with messageFiles :=
      ((sessionId, messageId),
        { id := messageId, sessionId := sessionId, role := role, content := content,
          toolUsed := toolUsed, sources := sources, metadata := metadata,
          createdAt := createdAt }) :: fs.messageFiles }

/-- `FileStorage.getMessage`: read the blob; `none` models ENOENT (the JS
returns `null` rather than raising). -/
def FileStorage.getMessage (fs : FileStorage) (sessionId messageId : Nat) :
    Option MsgFile :=
  fs.messageFiles.lookup (sessionId, messageId)

/-- `FileStorage.saveSummary`: write the summary JSON blob. -/
def FileStorage.saveSummary (fs : FileStorage) (sessionId summaryId : Nat)
    (summary : String) (coveredMessageIds : List Nat) (tokens createdAt : Nat) :
    FileStorage :=
  { fs with summaryFiles :=
      ((sessionId, summaryId),
        { id := summaryId, sessionId := sessionId, summary := summary,
          coveredMessageIds := coveredMessageIds, tokens := tokens,
          createdAt := createdAt }) :: fs.summaryFiles }

/-- `FileStorage.getSummary`: read the blob; `none` models ENOENT. -/
def FileStorage.getSummary (fs : FileStorage) (sessionId summaryId : Nat) :
    Option SumFile :=
  fs.summaryFiles.lookup (sessionId, summaryId)

/-- Error raised by a metadata-index statement.  `notFound` models a
PostgreSQL foreign-key violation on a missing `sessions` parent row. -/
inductive DbError
  | notFound
deriving DecidableEq, Repr

/-- `Database.getSession`: SELECT ... FROM sessions WHERE id = $1. -/
def Database.getSession (db : Database) (sessionId : Nat) : Option SessionRec :=
  db.sessions.find? (fun s => s.id == sessionId)

/-- Whether a `sessions` row with this id exists (drives FK checks). -/
def Database.sessionExists (db : Database) (sessionId : Nat) : Bool :=
  (db.getSession sessionId).isSome

/-- `Database.createSession` (id and timestamp supplied by the caller). -/
def Database.createSession (db : Database) (id : Nat) (title : Option String)
    (now : Nat) : Database × SessionRec :=
  let s : SessionRec :=
    { id := id, title := title, createdAt := now, updatedAt := now,
      lastActivityAt := now, currentSummaryId := none, metadata := none }
  ({ db with sessions := db.sessions ++ [s] }, s)

/-- The `updates` argument of `Database.updateSession`: an outer `none`
means the field was not provided (JS `undefined`), so it is left out of the
UPDATE.  `updateActivity` defaults to true (`updates.updateActivity !== false`). -/
structure SessionUpdates where
  title : Option (Option String) := none
  currentSummaryId : Option (Option Nat) := none
  metadata : Option String := none
  updateActivity : Bool := true
deriving DecidableEq, Repr

/-- Row-wise effect of the UPDATE in `Database.updateSession`: the WHERE
clause selects by id; `updated_at` is always in the SET list,
`last_activity_at` only when `updateActivity` is not false. -/
def Database.applySessionUpdate (sessionId : Nat) (u : SessionUpdates)
    (now : Nat) (s : SessionRec) : SessionRec :=
  if s.id == sessionId then
    { s with
      title := match u.title with | some t => t | none => s.title
      currentSummaryId :=
        match u.currentSummaryId with | some c => c | none => s.currentSummaryId
      metadata := match u.metadata with | some m => some m | none => s.metadata
      updatedAt := now
      lastActivityAt := if u.updateActivity then now else s.lastActivityAt }
  else s

/-- `Database.updateSession`: one UPDATE statement. -/
def Database.updateSession (db : Database) (sessionId : Nat)
    (u : SessionUpdates) (now : Nat) : Database :=
  { db with sessions :=
      db.sessions.map (Database.applySessionUpdate sessionId u now) }

/-- `Database.deleteSession`: DELETE with ON DELETE CASCADE to messages and
summaries. -/
def Database.deleteSession (db : Database) (sessionId : Nat) : Database :=
  { sessions := db.sessions.filter (fun s => !(s.id == sessionId)),
    messages := db.messages.filter (fun m => !(m.sessionId == sessionId)),
    summaries := db.summaries.filter (fun s => !(s.sessionId == sessionId)) }

/-- The `data` argument of `Database.createMessage` (the id is the one the
session service pre-generated so file and row share it). -/
structure NewMessage where
  id : Nat
  role : Role
  filePath : String
  tokens : Nat
deriving DecidableEq, Repr

/-- First statement of `Database.createMessage`: INSERT INTO messages. -/
def Database.insertMessageRow (db : Database) (sessionId : Nat)
    (d : NewMessage) (now : Nat) : Database :=
  { db with messages := db.messages ++
      [{ id := d.id, sessionId := sessionId, role := d.role,
         filePath := d.filePath, tokens := d.tokens, isSummarized := false,
         createdAt := now }] }

/-- Second statement of `Database.createMessage`: UPDATE sessions SET
last_activity_at, updated_at. -/
def Database.touchSessionActivity (db : Database) (sessionId now : Nat) :
    Database :=
  { db with sessions := db.sessions.map (fun s =>
      if s.id == sessionId then { s with lastActivityAt := now, updatedAt := now }
      else s) }

/-- `Database.createMessage`: the INSERT fails on the FK
`session_id REFERENCES sessions(id)` when the session row is absent. -/
def Database.createMessage (db : Database) (sessionId : Nat) (d : NewMessage)
    (now : Nat) : Except DbError Database :=
  if db.sessionExists sessionId then
    .ok ((db.insertMessageRow sessionId d now).touchSessionActivity sessionId now)
  else
    .error .notFound

/-- Descending creation-time order used by `ORDER BY created_at DESC`. -/
def msgDescLe (a b : MessageRec) : Prop :=
  b.createdAt ≤ a.createdAt

/-- Ascending creation-time order used by `ORDER BY created_at ASC`. -/
def msgAscLe (a b : MessageRec) : Prop :=
  a.createdAt ≤ b.createdAt

instance : DecidableRel msgDescLe :=
  fun a b => inferInstanceAs (Decidable (b.createdAt ≤ a.createdAt))

instance : DecidableRel msgAscLe :=
  fun a b => inferInstanceAs (Decidable (a.createdAt ≤ b.createdAt))

instance : IsTotal MessageRec msgDescLe :=
  ⟨fun a b => Nat.le_total b.createdAt a.createdAt⟩

instance : IsTrans MessageRec msgDescLe :=
  ⟨fun _ _ _ hab hbc => Nat.le_trans hbc hab⟩

instance : IsTotal MessageRec msgAscLe :=
  ⟨fun a b => Nat.le_total a.createdAt b.createdAt⟩

instance : IsTrans MessageRec msgAscLe :=
  ⟨fun _ _ _ hab hbc => Nat.le_trans hab hbc⟩

/-- `Database.getMessages`: select the session's rows (with the optional
`created_at < (SELECT created_at FROM messages WHERE id = beforeId)` cursor
condition; an SQL comparison with NULL never holds, so a dangling cursor
selects nothing), order newest first, LIMIT, then `.reverse()` back to
chronological order. -/
def Database.getMessages (db : Database) (sessionId limit : Nat)
    (beforeId : Option Nat) : List MessageRec :=
  let cursorOk : MessageRec → Bool := fun m =>
    match beforeId with
    | none => true
    | some b =>
      match db.messages.find? (fun x => x.id == b) with
      | some mb => decide (m.createdAt < mb.createdAt)
      | none => false
  let rows := db.messages.filter (fun m => m.sessionId == sessionId && cursorOk m)
  (((rows.insertionSort msgDescLe).take limit).reverse)

/-- `Database.getUnsummarizedMessages`: WHERE session_id = $1 AND
is_summarized = FALSE ORDER BY created_at ASC. -/
def Database.getUnsummarizedMessages (db : Database) (sessionId : Nat) :
    List MessageRec :=
  (db.messages.filter
    (fun m => m.sessionId == sessionId && m.isSummarized == false)).insertionSort msgAscLe

/-- `Database.markMessagesSummarized`: a single bulk UPDATE
(`WHERE id = ANY($1)`); ids matching no row are silently ignored. -/
def Database.markMessagesSummarized (db : Database) (messageIds : List Nat) :
    Database :=
  if messageIds.isEmpty then db
  else
    { db with messages := db.messages.map (fun m =>
        if messageIds.contains m.id then { m with isSummarized := true } else m) }

/-- `Database.countMeaningfulMessages`: COUNT of assistant rows not yet
summarized; COUNT never fails, it is 0 for an unknown session. -/
def Database.countMeaningfulMessages (db : Database) (sessionId : Nat) : Nat :=
  (db.messages.filter (fun m =>
    m.sessionId == sessionId && m.role == Role.assistant
      && m.isSummarized == false)).length

/-- The `data` argument of `Database.createSummary`. -/
structure NewSummary where
  filePath : String
  tokens : Nat
  coversUntilMessageId : Option Nat
deriving DecidableEq, Repr

/-- First statement of `Database.createSummary`: INSERT INTO summaries. -/
def Database.insertSummaryRow (db : Database) (sessionId : Nat)
    (d : NewSummary) (id now : Nat) : Database :=
  { db with summaries := db.summaries ++
      [{ id := id, sessionId := sessionId, filePath := d.filePath,
         tokens := d.tokens, coversUntilMessageId := d.coversUntilMessageId,
         createdAt := now }] }

/-- Second statement of `Database.createSummary`: UPDATE sessions SET
current_summary_id, updated_at. -/
def Database.repointCurrentSummary (db : Database) (sessionId id now : Nat) :
    Database :=
  { db with sessions := db.sessions.map (fun s =>
      if s.id == sessionId then
        { s with currentSummaryId := some id, updatedAt := now }
      else s) }

/-- `Database.createSummary`: two separate statements (INSERT then UPDATE,
no enclosing transaction); the INSERT fails on the FK when the session row
is absent. -/
def Database.createSummary (db : Database) (sessionId : Nat) (d : NewSummary)
    (id now : Nat) : Except DbError Database :=
  if db.sessionExists sessionId then
    .ok ((db.insertSummaryRow sessionId d id now).repointCurrentSummary
      sessionId id now)
  else
    .error .notFound

/-- `Database.getCurrentSummary`: the JOIN of summaries with the session's
current_summary_id; empty result (no session, no pointer, dangling pointer)
is `null`, not an error. -/
def Database.getCurrentSummary (db : Database) (sessionId : Nat) :
    Option SummaryRec :=
  match db.getSession sessionId with
  | some sess =>
    match sess.currentSummaryId with
    | some cid => db.summaries.find? (fun s => s.id == cid)
    | none => none
  | none => none

/-- Combined state of the two stores, as seen by the services. -/
structure EngineState where
  db : Database
  fs : FileStorage
deriving DecidableEq, Repr

/-- The `session` block of config/database.js (summaryModel and titleModel
identify external backends and play no role in the state logic). -/
structure SessionConfig where
  cacheExpiryMinutes : Nat
  meaningfulMessageThreshold : Nat
  defaultPageSize : Nat
deriving DecidableEq, Repr

/-- The shipped configuration values. -/
def sessionConfig : SessionConfig :=
  { cacheExpiryMinutes := 5, meaningfulMessageThreshold := 5, defaultPageSize := 4 }

/-- Result of `SummarizerService.checkSummarizationNeeded`. -/
structure SummarizationCheck where
  needsSummary : Bool
  reason : String
deriving DecidableEq, Repr

/-- `SummarizerService.checkSummarizationNeeded`.  The JS computes
`minutesSinceActivity = (now - lastActivityAt) / 60000` as a float and tests
`minutesSinceActivity <= cacheExpiryMinutes`; for integer millisecond
timestamps this is equivalent to `now - lastActivityAt ≤ cacheExpiryMinutes
* 60000` (the float division is far too precise to move an integer across
the boundary), which is how it is rendered here.  A `lastActivityAt` in the
future gives a negative (JS) resp. truncated-to-zero (Nat) difference; both
fall in the `cache_still_valid` branch. -/
def SummarizerService.checkSummarizationNeeded (cfg : SessionConfig)
    (db : Database) (now sessionId : Nat) : SummarizationCheck :=
  match db.getSession sessionId with
  | none => { needsSummary := false, reason := "session_not_found" }
  | some session =>
    if now - session.lastActivityAt ≤ cfg.cacheExpiryMinutes * 60000 then
      { needsSummary := false, reason := "cache_still_valid" }
    else if db.countMeaningfulMessages sessionId < cfg.meaningfulMessageThreshold then
      { needsSummary := false, reason := "not_enough_messages" }
    else
      { needsSummary := true, reason := "cache_expired_and_threshold_met" }

/-- Error thrown out of `SummarizerService.generateSummary`:
`contentMissing` is the TypeError raised when a message blob is absent
(`content.role` on null), `backendFailure` a failed OpenAI call, `dbError`
a failed metadata statement. -/
inductive SummarizerError
  | contentMissing
  | backendFailure
  | dbError
deriving DecidableEq, Repr

/-- The non-null return value of `generateSummary`. -/
structure SummaryOutcome where
  summary : String
  coveredMessages : Nat
  tokens : Nat
deriving DecidableEq, Repr

/-- Structural equality test for `Except`, so that concrete runs of the
fallible operations can be settled by `decide`. -/
instance {ε α : Type} [DecidableEq ε] [DecidableEq α] : DecidableEq (Except ε α) :=
  fun a b =>
    match a, b with
    | .error e, .error f =>
      match decEq e f with
      | .isTrue h => .isTrue (congrArg Except.error h)
      | .isFalse h => .isFalse (fun hh => h (Except.error.inj hh))
    | .ok x, .ok y =>
      match decEq x y with
      | .isTrue h => .isTrue (congrArg Except.ok h)
      | .isFalse h => .isFalse (fun hh => h (Except.ok.inj hh))
    | .error _, .ok _ => .isFalse (fun hh => Except.noConfusion hh)
    | .ok _, .error _ => .isFalse (fun hh => Except.noConfusion hh)

/-- Instrumented result of `generateSummary`: the final state, the returned
value (`Except.error` = the JS function threw; `Except.ok none` = it
returned null), whether the generation backend was invoked, and the list of
observable states — the state after each write statement, i.e. at each
`await` boundary where another request could read the stores. -/
structure GenerateSummaryResult where
  state : EngineState
  outcome : Except SummarizerError (Option SummaryOutcome)
  backendCalled : Bool
  trace : List EngineState
deriving DecidableEq, Repr

/-- `SummarizerService.generateSummary`.  `backendResp` is the outcome of
the `openai.chat.completions.create` call: on success the summary text and
the reported total token usage. -/
def SummarizerService.generateSummary (st : EngineState) (sessionId : Nat)
    (backendResp : Except Unit (String × Nat)) (summaryId now : Nat) :
    GenerateSummaryResult :=
  -- read: current summary record and its text (used only in the prompt)
  let currentSummary := st.db.getCurrentSummary sessionId
  let _previousSummaryText : Option String :=
    currentSummary.bind (fun cs => (st.fs.getSummary sessionId cs.id).map
      (fun f => f.summary))
  -- read: unsummarized batch, oldest first
  match st.db.getUnsummarizedMessages sessionId with
  | [] =>
    -- empty batch: return null, a no-op, before any backend call or write
    { state := st, outcome := .ok none, backendCalled := false, trace := [st] }
  | m0 :: rest =>
    let messages := m0 :: rest
    -- read: load every message blob; a missing blob raises before any write
    if (messages.map (fun m => st.fs.getMessage sessionId m.id)).contains none then
      { state := st, outcome := .error .contentMissing, backendCalled := false,
        trace := [st] }
    else
      match backendResp with
      | .error _ =>
        -- the backend call threw: propagate, nothing written yet
        { state := st, outcome := .error .backendFailure, backendCalled := true,
          trace := [st] }
      | .ok (summaryText, summaryTokens) =>
        let lastMessageId := (messages.getLast (List.cons_ne_nil m0 rest)).id
        let coveredIds := messages.map (fun m => m.id)
        -- write 1: the summary blob
        let fs1 := st.fs.saveSummary sessionId summaryId summaryText coveredIds
          summaryTokens now
        match st.db.createSummary sessionId
            { filePath := FileStorage.getSummaryPath sessionId summaryId,
              tokens := summaryTokens,
              coversUntilMessageId := some lastMessageId } summaryId now with
        | .error _ =>
          -- INSERT rejected (session row gone): throws with the blob written
          { state := { db := st.db, fs := fs1 }, outcome := .error .dbError,
            backendCalled := true,
            trace := [st, { db := st.db, fs := fs1 }] }
        | .ok db2 =>
          -- write 2 and 3 are inside createSummary (INSERT, then UPDATE
          -- sessions); write 4 marks the batch
          let db3 := db2.markMessagesSummarized coveredIds
          { state := { db := db3, fs := fs1 },
            outcome := .ok (some { summary := summaryText,
                                   coveredMessages := messages.length,
                                   tokens := summaryTokens }),
            backendCalled := true,
            trace :=
              [st,
               { db := st.db, fs := fs1 },
               { db := st.db.insertSummaryRow sessionId
                   { filePath := FileStorage.getSummaryPath sessionId summaryId,
                     tokens := summaryTokens,
                     coversUntilMessageId := some lastMessageId } summaryId now,
                 fs := fs1 },
               { db := db2, fs := fs1 },
               { db := db3, fs := fs1 }] }

/-- One entry of the `activeMessages` list of a context package. -/
structure ApiMessage where
  role : Role
  content : String
deriving DecidableEq, Repr

/-- The context package returned by `getSessionContext`. -/
structure ContextPackage where
  summary : Option String
  messages : List ApiMessage
  hasSummary : Bool
  activeMessageCount : Nat
deriving DecidableEq, Repr

/-- The read-only tail of `SummarizerService.getSessionContext` (after the
optional summarization): fetch the current summary record and its text,
fetch the unsummarized messages, load each blob and skip entries whose blob
is absent (`if (content)`), and package.  `hasSummary` is the JS truthiness
`!!summaryText`, false for both null and the empty string. -/
def SummarizerService.buildContextPackage (st : EngineState) (sessionId : Nat) :
    ContextPackage :=
  let currentSummary := st.db.getCurrentSummary sessionId
  let summaryText : Option String :=
    currentSummary.bind (fun cs => (st.fs.getSummary sessionId cs.id).map
      (fun f => f.summary))
  let activeMessages :=
    (st.db.getUnsummarizedMessages sessionId).filterMap (fun m =>
      (st.fs.getMessage sessionId m.id).map (fun c =>
        { role := c.role, content := c.content }))
  { summary := summaryText, messages := activeMessages,
    hasSummary := !(summaryText.getD "").isEmpty,
    activeMessageCount := activeMessages.length }

/-- Instrumented result of `getSessionContext`: final state, the returned
context package (or the propagated summarizer exception), and whether the
summarization subroutine was triggered. -/
structure SessionContextResult where
  state : EngineState
  outcome : Except SummarizerError ContextPackage
  summarizationTriggered : Bool
deriving DecidableEq, Repr

/-- `SummarizerService.getSessionContext`: check the trigger, run the
summarizer when due (an exception from it propagates), then build the
context package from the resulting state. -/
def SummarizerService.getSessionContext (cfg : SessionConfig)
    (st : EngineState) (sessionId now : Nat)
    (backendResp : Except Unit (String × Nat)) (summaryId : Nat) :
    SessionContextResult :=
  let check := SummarizerService.checkSummarizationNeeded cfg st.db now sessionId
  if check.needsSummary then
    let gen := SummarizerService.generateSummary st sessionId backendResp
      summaryId now
    match gen.outcome with
    | .error e =>
      { state := gen.state, outcome := .error e, summarizationTriggered := true }
    | .ok _ =>
      { state := gen.state,
        outcome := .ok (SummarizerService.buildContextPackage gen.state sessionId),
        summarizationTriggered := true }
  else
    { state := st,
      outcome := .ok (SummarizerService.buildContextPackage st sessionId),
      summarizationTriggered := false }

/-- Instrumented result of `SessionService.addMessage`: the final state and
the returned `{id, role, content, tokens}` (or the propagated FK error). -/
structure AddMessageResult where
  state : EngineState
  result : Except DbError (Nat × Role × String × Nat)
deriving DecidableEq, Repr

/-- The metadata-row payload `addMessage` hands to `createMessage`: the
pre-generated id, the token estimate `Math.ceil(content.length / 4)` and
the relative blob path. -/
def SessionService.newMessageData (sessionId messageId : Nat) (role : Role)
    (content : String) : NewMessage :=
  { id := messageId, role := role,
    filePath := FileStorage.getMessagePath sessionId messageId,
    tokens := (content.length + 3) / 4 }

/-- `SessionService.addMessage`: estimate tokens, write the content blob
first, then create the metadata row with the same pre-generated id.  If
the row creation fails the blob stays behind (an orphan). -/
def SessionService.addMessage (st : EngineState) (sessionId messageId : Nat)
    (role : Role) (content : String) (toolUsed sources metadata : Option String)
    (now : Nat) : AddMessageResult :=
  let fs1 := st.fs.saveMessage sessionId messageId role content toolUsed
    sources metadata now
  match st.db.createMessage sessionId
      (SessionService.newMessageData sessionId messageId role content) now with
  | .error e => { state := { db := st.db, fs := fs1 }, result := .error e }
  | .ok db2 =>
    { state := { db := db2, fs := fs1 },
      result := .ok (messageId, role, content, (content.length + 3) / 4) }

/-- One entry of the list returned by `SessionService.getMessages`. -/
structure ListedMessage where
  id : Nat
  role : Role
  content : String
  toolUsed : Option String
  sources : Option String
  createdAt : Nat
  isSummarized : Bool
deriving DecidableEq, Repr

/-- `SessionService.getMessages`: page through the metadata rows, then load
each row's blob; a missing blob degrades to the row's role and an empty
content string (`content?.content || ''`), it does not raise. -/
def SessionService.getMessages (st : EngineState) (sessionId limit : Nat)
    (beforeId : Option Nat) : List ListedMessage :=
  (st.db.getMessages sessionId limit beforeId).map (fun ref =>
    let content := st.fs.getMessage sessionId ref.id
    { id := ref.id,
      role := (content.map (fun c => c.role)).getD ref.role,
      content := (content.map (fun c => c.content)).getD "",
      toolUsed := content.bind (fun c => c.toolUsed),
      sources := content.bind (fun c => c.sources),
      createdAt := ref.createdAt,
      isSummarized := ref.isSummarized })

/-- The double-quote and single-quote characters stripped by the title
cleanup regex. -/
def isQuoteChar (c : Char) : Bool :=
  c == Char.ofNat 34 || c == Char.ofNat 39

/-- The trailing `.` `!` `?` stripped by the title cleanup regex. -/
def isTrailingPunct (c : Char) : Bool :=
  c == Char.ofNat 46 || c == Char.ofNat 33 || c == Char.ofNat 63

/-- The title post-processing of `SessionService.generateTitle`:
`.replace(/["']/g, then .replace(/[.!?]$/,), then .trim()`. -/
def cleanTitle (s : String) : String :=
  let noQuotes := s.toList.filter (fun c => !(isQuoteChar c))
  let stripped :=
    match noQuotes.getLast? with
    | some c => if isTrailingPunct c then noQuotes.dropLast else noQuotes
    | none => noQuotes
  (String.mk stripped).trim

/-- `SessionService.generateTitle`: look at the first page of two messages,
find the first user message, call the title backend, store the cleaned
title via `updateSession` with `updateActivity: false`.  Any backend error
is caught and `null` is returned with nothing stored. -/
def SessionService.generateTitle (st : EngineState) (sessionId now : Nat)
    (backendResp : Except Unit String) : EngineState × Option String :=
  let messages := SessionService.getMessages st sessionId 2 none
  if messages.isEmpty then (st, none)
  else
    match messages.find? (fun m => m.role == Role.user) with
    | none => (st, none)
    | some _firstUserMessage =>
      match backendResp with
      | .error _ => (st, none)
      | .ok raw =>
        let title := cleanTitle raw
        let u : SessionUpdates := { title := some (some title), updateActivity := false }
        ({ st with db := st.db.updateSession sessionId u now }, some title)

/-- `SessionService.updateTitle`: manual titling, also with
`updateActivity: false`. -/
def SessionService.updateTitle (st : EngineState) (sessionId : Nat)
    (title : String) (now : Nat) : EngineState :=
  let u : SessionUpdates := { title := some (some title), updateActivity := false }
  { st with db := st.db.updateSession sessionId u now }

/-- The recovery invariant of the spec: every message row and every summary
row of the metadata index has a corresponding content-store blob (the
reverse is not required). -/
def storeInvariant (st : EngineState) : Prop :=
  (∀ m ∈ st.db.messages, (st.fs.getMessage m.sessionId m.id).isSome = true) ∧
  (∀ s ∈ st.db.summaries, (st.fs.getSummary s.sessionId s.id).isSome = true)

instance (st : EngineState) : Decidable (storeInvariant st) :=
  inferInstanceAs (Decidable
    ((∀ m ∈ st.db.messages, (st.fs.getMessage m.sessionId m.id).isSome = true) ∧
     (∀ s ∈ st.db.summaries, (st.fs.getSummary s.sessionId s.id).isSome = true)))

/-- Referential integrity enforced by the schema's foreign keys: every
message and summary row points at an existing session row. -/
def dbFkConsistent (db : Database) : Prop :=
  (∀ m ∈ db.messages, db.sessionExists m.sessionId = true) ∧
  (∀ s ∈ db.summaries, db.sessionExists s.sessionId = true)

instance (db : Database) : Decidable (dbFkConsistent db) :=
  inferInstanceAs (Decidable
    ((∀ m ∈ db.messages, db.sessionExists m.sessionId = true) ∧
     (∀ s ∈ db.summaries, db.sessionExists s.sessionId = true)))

/-! ### Sample states used by concrete witnesses -/

/-- A single `sessions` row with the given last-activity timestamp. -/
def mkSessionRow (last : Nat) : SessionRec :=
  { id := 0, title := none, createdAt := 0, updatedAt := last,
    lastActivityAt := last, currentSummaryId := none, metadata := none }

/-- Unsummarized assistant message i+1 of session 0. -/
def mkAssistantMsg (i : Nat) : MessageRec :=
  { id := i + 1, sessionId := 0, role := .assistant, filePath := "",
    tokens := 0, isSummarized := false, createdAt := i + 1 }

/-- Content blob for message i of session 0. -/
def mkMsgBlob (i : Nat) : (Nat × Nat) × MsgFile :=
  ((0, i), { id := i, sessionId := 0, role := .assistant, content := "m",
             toolUsed := none, sources := none, metadata := none,
             createdAt := i })

/-- Session 0 with the given idle anchor and n unsummarized assistant
messages, all blobs present. -/
def sampleState (last n : Nat) : EngineState :=
  { db := { sessions := [mkSessionRow last],
            messages := (List.range n).map mkAssistantMsg,
            summaries := [] },
    fs := { messageFiles := (List.range n).map (fun i => mkMsgBlob (i + 1)),
            summaryFiles := [] } }

/-- A metadata index with no rows at all. -/
def emptyDb : Database := { sessions := [], messages := [], summaries := [] }

/-! ### Claim theorems -/

/-- C6.  Running the summarization algorithm on a session with zero
unsummarized messages is a no-op, not an error: the state (metadata index
and content store) is returned unchanged, the outcome is the JS `null`, and
the generation backend is never invoked. -/
theorem claim6_empty_batch_noop (st : EngineState) (sessionId : Nat)
    (backendResp : Except Unit (String × Nat)) (summaryId now : Nat)
    (h : st.db.getUnsummarizedMessages sessionId = []) :
    (SummarizerService.generateSummary st sessionId backendResp summaryId now).state = st ∧
    (SummarizerService.generateSummary st sessionId backendResp summaryId now).outcome
      = Except.ok none ∧
    (SummarizerService.generateSummary st sessionId backendResp summaryId now).backendCalled
      = false := by
  unfold SummarizerService.generateSummary
  rw [h]
  exact ⟨rfl, rfl, rfl⟩

/-- Witness for C6: a concrete session whose five messages are all already
summarized. -/
theorem claim6_empty_batch_noop_witness :
    (SummarizerService.generateSummary
        { db := (sampleState 0 5).db.markMessagesSummarized [1, 2, 3, 4, 5],
          fs := (sampleState 0 5).fs } 0 (Except.ok ("SUM", 42)) 100 600000).state
      = { db := (sampleState 0 5).db.markMessagesSummarized [1, 2, 3, 4, 5],
          fs := (sampleState 0 5).fs } :=
  (claim6_empty_batch_noop _ 0 (Except.ok ("SUM", 42)) 100 600000 (by decide)).1

/-- C3.  If the generation-backend call inside the summarization algorithm
fails, the whole operation aborts with no partial writes: the returned
state is the input state (so no summary blob, no summary row, unchanged
`currentSummaryId`, unchanged `isSummarized` flags), and when the backend
was actually reached the thrown error is the backend failure. -/
theorem claim3_backend_failure_no_partial_writes (st : EngineState)
    (sessionId : Nat) (e : Unit) (summaryId now : Nat) :
    (SummarizerService.generateSummary st sessionId (Except.error e) summaryId now).state
      = st ∧
    ((SummarizerService.generateSummary st sessionId (Except.error e) summaryId now).backendCalled
        = true →
      (SummarizerService.generateSummary st sessionId (Except.error e) summaryId now).outcome
        = Except.error SummarizerError.backendFailure) := by
  unfold SummarizerService.generateSummary
  dsimp only
  split
  · exact ⟨rfl, fun h => absurd h (by simp)⟩
  · split
    · exact ⟨rfl, fun h => absurd h (by simp)⟩
    · exact ⟨rfl, fun _ => rfl⟩

/-- Witness for C3: a concrete failing backend call over five pending
messages leaves the concrete state untouched. -/
theorem claim3_backend_failure_no_partial_writes_witness :
    (SummarizerService.generateSummary (sampleState 0 5) 0 (Except.error ())
        100 600000).state = sampleState 0 5 ∧
    (SummarizerService.generateSummary (sampleState 0 5) 0 (Except.error ())
        100 600000).outcome = Except.error SummarizerError.backendFailure :=
  ⟨(claim3_backend_failure_no_partial_writes (sampleState 0 5) 0 () 100 600000).1,
   (claim3_backend_failure_no_partial_writes (sampleState 0 5) 0 () 100 600000).2
     (by decide)⟩

/-- Mapping a function that preserves a predicate commutes with `find?`
(the row-wise UPDATE keeps the WHERE key, so lookups find the updated
row). -/
theorem find?_map_of_pred_preserved {α : Type} (f : α → α) (p : α → Bool)
    (h : ∀ x, p (f x) = p x) :
    ∀ l : List α, (l.map f).find? p = (l.find? p).map f := by
  intro l
  induction l with
  | nil => rfl
  | cons a l ih =>
    simp only [List.map_cons, List.find?]
    rw [h a]
    cases hpa : p a
    · simpa using ih
    · simp

/-- C10.  Storing a title through `updateSession` with
`updateActivity: false` (the call both `generateTitle` and `updateTitle`
make) rewrites the session row with the new title and `updatedAt := now`,
leaving `lastActivityAt` (and every other field) unchanged; and when the
title backend call fails, `generateTitle` swallows the error, returns null
and leaves the whole state untouched. -/
theorem claim10_title_frame :
    (∀ (db : Database) (sessionId : Nat) (t : String) (now : Nat) (s : SessionRec),
      db.getSession sessionId = some s →
      (db.updateSession sessionId
          { title := some (some t), updateActivity := false } now).getSession sessionId
        = some { s with title := some t, updatedAt := now }) ∧
    (∀ (st : EngineState) (sessionId now : Nat) (e : Unit),
      SessionService.generateTitle st sessionId now (Except.error e) = (st, none)) := by
  constructor
  · intro db sessionId t now s h
    unfold Database.getSession at h ⊢
    unfold Database.updateSession
    dsimp only
    rw [find?_map_of_pred_preserved]
    · rw [h]
      have hid := @List.find?_some _ _ _ _ h
      simp [Database.applySessionUpdate, hid]
    · intro x
      unfold Database.applySessionUpdate
      split <;> rfl
  · intro st sessionId now e
    unfold SessionService.generateTitle
    dsimp only
    split
    · rfl
    · split
      · rfl
      · rfl

/-- Witness for C10: a concrete title store keeps `lastActivityAt = 5` and
sets `updatedAt = 777`; a concrete failing titling call changes nothing. -/
theorem claim10_title_frame_witness :
    (({ sessions := [mkSessionRow 5], messages := [], summaries := [] } :
        Database).updateSession 0
        { title := some (some "T"), updateActivity := false } 777).getSession 0
      = some { mkSessionRow 5 with title := some "T", updatedAt := 777 } ∧
    SessionService.generateTitle (sampleState 0 2) 0 777 (Except.error ())
      = (sampleState 0 2, none) :=
  ⟨claim10_title_frame.1
      { sessions := [mkSessionRow 5], messages := [], summaries := [] } 0 "T" 777
      (mkSessionRow 5) (by decide),
   claim10_title_frame.2 (sampleState 0 2) 0 777 ()⟩

/-- `getSessionContext` runs the summarizer exactly when
`checkSummarizationNeeded` says so. -/
theorem getSessionContext_triggered_eq (cfg : SessionConfig) (st : EngineState)
    (sessionId now : Nat) (backendResp : Except Unit (String × Nat)) (summaryId : Nat) :
    (SummarizerService.getSessionContext cfg st sessionId now backendResp
        summaryId).summarizationTriggered
      = (SummarizerService.checkSummarizationNeeded cfg st.db now sessionId).needsSummary := by
  unfold SummarizerService.getSessionContext
  dsimp only
  split
  · next h => split <;> exact h.symm
  · next h =>
    simp only [Bool.not_eq_true] at h
    exact h.symm

/-- For an existing session, the trigger check holds exactly when the idle
time strictly exceeds the expiry window and the unsummarized assistant
count reaches the threshold. -/
theorem checkNeeded_iff (cfg : SessionConfig) (db : Database) (now sessionId : Nat)
    (sess : SessionRec) (h : db.getSession sessionId = some sess) :
    ((SummarizerService.checkSummarizationNeeded cfg db now sessionId).needsSummary = true ↔
      (cfg.cacheExpiryMinutes * 60000 < now - sess.lastActivityAt ∧
        cfg.meaningfulMessageThreshold ≤ db.countMeaningfulMessages sessionId)) := by
  unfold SummarizerService.checkSummarizationNeeded
  rw [h]
  dsimp only
  by_cases h1 : now - sess.lastActivityAt ≤ cfg.cacheExpiryMinutes * 60000
  · simp only [if_pos h1]
    constructor
    · intro hh; cases hh
    · intro hh; omega
  · simp only [if_neg h1]
    by_cases h2 : db.countMeaningfulMessages sessionId < cfg.meaningfulMessageThreshold
    · simp only [if_pos h2]
      constructor
      · intro hh; cases hh
      · intro hh; omega
    · simp only [if_neg h2]
      constructor
      · intro _; omega
      · intro _; trivial

/-- C1.  Under the shipped configuration (expiry 5 minutes, threshold 5),
the context-build path triggers summarization for an existing session iff
strictly more than 5 minutes (300000 ms) have elapsed since
`lastActivityAt` AND at least 5 unsummarized assistant messages exist; in
particular (at `now = 600000`): idle 3 minutes with 10 such messages does
not trigger, idle 6 minutes with 10 does, idle 6 minutes with only 2 does
not. -/
theorem claim1_cache_expiry_gating :
    (∀ (st : EngineState) (sessionId now : Nat)
        (backendResp : Except Unit (String × Nat)) (summaryId : Nat) (sess : SessionRec),
      st.db.getSession sessionId = some sess →
      ((SummarizerService.getSessionContext sessionConfig st sessionId now backendResp
          summaryId).summarizationTriggered = true ↔
        (5 * 60000 < now - sess.lastActivityAt ∧
          5 ≤ st.db.countMeaningfulMessages sessionId))) ∧
    (SummarizerService.getSessionContext sessionConfig (sampleState 420000 10) 0 600000
        (Except.ok ("SUM", 42)) 100).summarizationTriggered = false ∧
    (SummarizerService.getSessionContext sessionConfig (sampleState 240000 10) 0 600000
        (Except.ok ("SUM", 42)) 100).summarizationTriggered = true ∧
    (SummarizerService.getSessionContext sessionConfig (sampleState 240000 2) 0 600000
        (Except.ok ("SUM", 42)) 100).summarizationTriggered = false := by
  refine ⟨?_, by decide, by decide, by decide⟩
  intro st sessionId now backendResp summaryId sess h
  rw [getSessionContext_triggered_eq]
  exact checkNeeded_iff sessionConfig st.db now sessionId sess h

/-- Witness for C1: the general gating equivalence applied to the concrete
6-minutes-idle, 10-message session. -/
theorem claim1_cache_expiry_gating_witness :
    ((SummarizerService.getSessionContext sessionConfig (sampleState 240000 10) 0 600000
        (Except.ok ("SUM", 42)) 100).summarizationTriggered = true ↔
      (5 * 60000 < 600000 - (mkSessionRow 240000).lastActivityAt ∧
        5 ≤ (sampleState 240000 10).db.countMeaningfulMessages 0)) :=
  claim1_cache_expiry_gating.1 (sampleState 240000 10) 0 600000
    (Except.ok ("SUM", 42)) 100 (mkSessionRow 240000) (by decide)

/-- The bulk mark UPDATE touches only the messages table. -/
theorem mark_summaries_eq (db : Database) (ids : List Nat) :
    (db.markMessagesSummarized ids).summaries = db.summaries := by
  unfold Database.markMessagesSummarized
  split <;> rfl

/-- After the bulk mark UPDATE, every surviving row whose id was in the
marked set carries `isSummarized = true`. -/
theorem mark_marks (db : Database) (ids : List Nat) (m2 : MessageRec)
    (hm2 : m2 ∈ (db.markMessagesSummarized ids).messages) (hid : m2.id ∈ ids) :
    m2.isSummarized = true := by
  unfold Database.markMessagesSummarized at hm2
  by_cases hemp : ids.isEmpty
  · rw [if_pos hemp] at hm2
    rcases ids with _ | ⟨a, l⟩
    · cases hid
    · cases hemp
  · rw [if_neg hemp] at hm2
    dsimp only at hm2
    rw [List.mem_map] at hm2
    obtain ⟨x, hx, hfx⟩ := hm2
    by_cases hc : ids.contains x.id
    · rw [if_pos hc] at hfx
      rw [← hfx]
    · rw [if_neg hc] at hfx
      subst hfx
      simp at hc
      exact absurd hid hc

/-- Counterexample to C2.  On a concrete 5-message session, the observable
states after the summary INSERT (trace index 2) and after the
current-summary repoint UPDATE (trace index 3) both contain the new
Summary record while every covered message still has
`isSummarized = false`: the INSERT, the repoint and the bulk mark are three
separate single-statement operations with no enclosing transaction, so a
reader between them observes a Summary whose covered messages are unmarked
— and the window spans (at least) the whole repoint statement, i.e. more
than the duration of one transaction. -/
theorem claim2_atomicity_counterexample :
    ((SummarizerService.generateSummary (sampleState 0 5) 0 (Except.ok ("SUM", 42)) 100
        600000).trace.getD 2 (sampleState 0 5)).db.summaries.any
        (fun s => s.id == 100) = true ∧
    ((SummarizerService.generateSummary (sampleState 0 5) 0 (Except.ok ("SUM", 42)) 100
        600000).trace.getD 2 (sampleState 0 5)).db.messages.all
        (fun m => m.isSummarized == false) = true ∧
    ((SummarizerService.generateSummary (sampleState 0 5) 0 (Except.ok ("SUM", 42)) 100
        600000).trace.getD 3 (sampleState 0 5)).db.summaries.any
        (fun s => s.id == 100) = true ∧
    ((SummarizerService.generateSummary (sampleState 0 5) 0 (Except.ok ("SUM", 42)) 100
        600000).trace.getD 3 (sampleState 0 5)).db.messages.all
        (fun m => m.isSummarized == false) = true := by decide

/-- C2 as amended.  The summary INSERT, the session repoint and the bulk
message mark are separate statements, not one transaction, and the
summary-exists-but-unmarked state is observable in between
(`claim2_atomicity_counterexample`); what does hold is that a successful
run of the summarization algorithm ends in a consistent state: the new
Summary record is present and every message of the consumed batch is
marked summarized. -/
theorem claim2_atomicity_amended : ∀ (st : EngineState) (sessionId : Nat)
    (text : String) (tok summaryId now : Nat) (out : SummaryOutcome),
    (SummarizerService.generateSummary st sessionId (Except.ok (text, tok)) summaryId
        now).outcome = Except.ok (some out) →
    ((SummarizerService.generateSummary st sessionId (Except.ok (text, tok)) summaryId
        now).state.db.summaries.any (fun s => s.id == summaryId) = true ∧
      ∀ m ∈ st.db.getUnsummarizedMessages sessionId,
        ∀ m2 ∈ (SummarizerService.generateSummary st sessionId (Except.ok (text, tok))
            summaryId now).state.db.messages,
          m2.id = m.id → m2.isSummarized = true) := by
  intro st sessionId text tok summaryId now out
  unfold SummarizerService.generateSummary
  dsimp only
  split
  · intro hout
    simp at hout
  · next m0 rest hbatch =>
    split
    · intro hout
      simp at hout
    · next hcont =>
      split
      · next db2 heq =>
        intro hout
        simp at hout
      · next db2 heq =>
        intro _
        unfold Database.createSummary at heq
        split at heq
        · rw [Except.ok.injEq] at heq
          subst heq
          constructor
          · rw [mark_summaries_eq]
            unfold Database.repointCurrentSummary Database.insertSummaryRow
            dsimp only
            rw [List.any_eq_true]
            refine ⟨_, List.mem_append.2 (Or.inr (List.mem_singleton.2 rfl)), ?_⟩
            simp
          · intro m hm m2 hm2 hid
            refine mark_marks _ _ _ hm2 ?_
            rw [hid]
            rw [hbatch] at hm
            exact List.mem_map.2 ⟨m, hm, rfl⟩
        · cases heq

/-- Witness for the amended C2: the concrete 5-message run ends with the
summary row present and message 1 marked. -/
theorem claim2_atomicity_amended_witness :
    (SummarizerService.generateSummary (sampleState 0 5) 0 (Except.ok ("SUM", 42)) 100
        600000).state.db.summaries.any (fun s => s.id == 100) = true :=
  (claim2_atomicity_amended (sampleState 0 5) 0 "SUM" 42 100 600000
    { summary := "SUM", coveredMessages := 5, tokens := 42 } (by decide)).1

/-- Counterexample to C7.  On an index with no rows, for session id 7 (which
does not exist): counting meaningful messages silently returns the default
0, reading the current summary silently returns null, and the bulk mark
silently succeeds changing nothing — none of these operations can even
fail, contradicting the claim that every message/summary operation
referencing a non-existent session fails with NotFound. -/
theorem claim7_notfound_counterexample :
    Database.getSession emptyDb 7 = none ∧
    Database.countMeaningfulMessages emptyDb 7 = 0 ∧
    Database.getCurrentSummary emptyDb 7 = none ∧
    Database.markMessagesSummarized emptyDb [3] = emptyDb := by decide

/-- C7 as amended.  Only the INSERT operations fail on a non-existent
session (via the schema's foreign keys): `createMessage` and
`createSummary` error with NotFound.  The read and bulk-update operations
do not: `getCurrentSummary` returns null, `countMeaningfulMessages`
returns 0 (given the referential integrity the foreign keys guarantee),
and `markMessagesSummarized` on ids that match no row silently leaves the
index unchanged. -/
theorem claim7_notfound_amended : ∀ (db : Database) (sessionId : Nat),
    db.getSession sessionId = none →
    ((∀ (d : NewMessage) (now : Nat),
        db.createMessage sessionId d now = Except.error DbError.notFound) ∧
     (∀ (d : NewSummary) (summaryId now : Nat),
        db.createSummary sessionId d summaryId now = Except.error DbError.notFound) ∧
     db.getCurrentSummary sessionId = none ∧
     (dbFkConsistent db → db.countMeaningfulMessages sessionId = 0) ∧
     (∀ ids : List Nat, (∀ i ∈ ids, ∀ m ∈ db.messages, m.id ≠ i) →
        db.markMessagesSummarized ids = db)) := by
  intro db sessionId h
  have hex : db.sessionExists sessionId = false := by
    unfold Database.sessionExists
    rw [h]
    rfl
  refine ⟨?_, ?_, ?_, ?_, ?_⟩
  · intro d now
    unfold Database.createMessage
    rw [hex]
    rfl
  · intro d summaryId now
    unfold Database.createSummary
    rw [hex]
    rfl
  · unfold Database.getCurrentSummary
    rw [h]
  · intro hfk
    unfold Database.countMeaningfulMessages
    rw [List.length_eq_zero]
    rw [List.filter_eq_nil_iff]
    intro m hm
    have hses := hfk.1 m hm
    suffices hne : (m.sessionId == sessionId) = false by simp [hne]
    by_cases hb : (m.sessionId == sessionId) = true
    · exfalso
      have : m.sessionId = sessionId := by simpa using hb
      rw [this] at hses
      rw [hex] at hses
      cases hses
    · simpa using hb
  · intro ids hids
    unfold Database.markMessagesSummarized
    by_cases hemp : ids.isEmpty
    · rw [if_pos hemp]
    · rw [if_neg hemp]
      have hmap : db.messages.map (fun m =>
          if ids.contains m.id then { m with isSummarized := true } else m)
            = db.messages.map id := by
        refine List.map_congr_left ?_
        intro x hx
        have hnc : ids.contains x.id = false := by
          by_cases hc : ids.contains x.id = true
          · exfalso
            have hmem : x.id ∈ ids := by simpa using hc
            exact hids x.id hmem x hx rfl
          · simpa using hc
        rw [hnc]
        rfl
      rw [hmap, List.map_id]

/-- Witness for the amended C7, on a concrete index holding an unrelated
session: inserting a message for absent session 7 errors with NotFound,
and counting its meaningful messages returns 0. -/
theorem claim7_notfound_amended_witness :
    (sampleState 0 2).db.createMessage 7
        { id := 9, role := Role.user, filePath := "", tokens := 0 } 5
      = Except.error DbError.notFound ∧
    (sampleState 0 2).db.countMeaningfulMessages 7 = 0 :=
  ⟨(claim7_notfound_amended (sampleState 0 2).db 7 (by decide)).1
      { id := 9, role := Role.user, filePath := "", tokens := 0 } 5,
   (claim7_notfound_amended (sampleState 0 2).db 7 (by decide)).2.2.2.1 (by decide)⟩

/-- Rows selected by the unsummarized-messages query belong to the session
and carry `isSummarized = false`. -/
theorem mem_getUnsummarized (db : Database) (sessionId : Nat) (m : MessageRec)
    (hm : m ∈ db.getUnsummarizedMessages sessionId) :
    m ∈ db.messages ∧ m.sessionId = sessionId ∧ m.isSummarized = false := by
  unfold Database.getUnsummarizedMessages at hm
  rw [List.mem_insertionSort] at hm
  rw [List.mem_filter] at hm
  obtain ⟨h1, h2⟩ := hm
  simp at h2
  exact ⟨h1, h2.1, h2.2⟩

/-- Every active message of a context package comes from an unsummarized
row of the state it was built from. -/
theorem buildContextPackage_exclusive (s : EngineState) (sessionId : Nat) :
    ∀ am ∈ (SummarizerService.buildContextPackage s sessionId).messages,
      ∃ m : MessageRec, m ∈ s.db.messages ∧ m.sessionId = sessionId ∧
        m.isSummarized = false ∧
        (s.fs.getMessage sessionId m.id).map
          (fun c => ApiMessage.mk c.role c.content) = some am := by
  unfold SummarizerService.buildContextPackage
  dsimp only
  intro am ham
  rw [List.mem_filterMap] at ham
  obtain ⟨m, hm, hmap⟩ := ham
  have h3 := mem_getUnsummarized _ _ _ hm
  exact ⟨m, h3.1, h3.2.1, h3.2.2, hmap⟩

/-- A successfully returned context package is the one built from the
request's final state. -/
theorem getSessionContext_ok (cfg : SessionConfig) (st : EngineState)
    (sessionId now : Nat) (backendResp : Except Unit (String × Nat))
    (summaryId : Nat) (ctx : ContextPackage) :
    (SummarizerService.getSessionContext cfg st sessionId now backendResp
        summaryId).outcome = Except.ok ctx →
    ctx = SummarizerService.buildContextPackage
      (SummarizerService.getSessionContext cfg st sessionId now backendResp
        summaryId).state sessionId := by
  unfold SummarizerService.getSessionContext
  dsimp only
  split
  · split
    · intro h
      cases h
    · intro h
      cases h
      rfl
  · intro h
    cases h
    rfl

/-- C5.  Context exclusivity: every entry of the `activeMessages` list of a
context package returned by the context-build operation stems from a
message row of the (post-summarization) index whose `isSummarized` flag is
false — no message already folded into a summary is handed to the response
producer. -/
theorem claim5_context_exclusivity : ∀ (cfg : SessionConfig) (st : EngineState)
    (sessionId now : Nat) (backendResp : Except Unit (String × Nat))
    (summaryId : Nat) (ctx : ContextPackage),
    (SummarizerService.getSessionContext cfg st sessionId now backendResp
        summaryId).outcome = Except.ok ctx →
    ∀ am ∈ ctx.messages, ∃ m : MessageRec,
      m ∈ (SummarizerService.getSessionContext cfg st sessionId now backendResp
          summaryId).state.db.messages ∧
      m.sessionId = sessionId ∧
      m.isSummarized = false ∧
      ((SummarizerService.getSessionContext cfg st sessionId now backendResp
          summaryId).state.fs.getMessage sessionId m.id).map
        (fun c => ApiMessage.mk c.role c.content) = some am := by
  intro cfg st sessionId now backendResp summaryId ctx hctx am ham
  rw [getSessionContext_ok cfg st sessionId now backendResp summaryId ctx hctx] at ham
  exact buildContextPackage_exclusive _ sessionId am ham

/-- Witness for C5: the first active entry of the concrete two-message
session's package is traced back to an unsummarized row. -/
theorem claim5_context_exclusivity_witness :
    ∃ m : MessageRec,
      m ∈ (SummarizerService.getSessionContext sessionConfig (sampleState 0 2) 0 0
          (Except.ok ("s", 1)) 100).state.db.messages ∧
      m.sessionId = 0 ∧
      m.isSummarized = false ∧
      ((SummarizerService.getSessionContext sessionConfig (sampleState 0 2) 0 0
          (Except.ok ("s", 1)) 100).state.fs.getMessage 0 m.id).map
        (fun c => ApiMessage.mk c.role c.content)
        = some { role := Role.assistant, content := "m" } :=
  claim5_context_exclusivity sessionConfig (sampleState 0 2) 0 0
    (Except.ok ("s", 1)) 100
    { summary := none,
      messages := [{ role := Role.assistant, content := "m" },
                   { role := Role.assistant, content := "m" }],
      hasSummary := false, activeMessageCount := 2 } (by decide)
    { role := Role.assistant, content := "m" } (by decide)

/-- A blob write makes its own key readable. -/
theorem getMessage_save_self (fs : FileStorage) (sessionId messageId : Nat)
    (role : Role) (content : String) (toolUsed sources metadata : Option String)
    (now : Nat) :
    ((fs.saveMessage sessionId messageId role content toolUsed sources metadata
        now).getMessage sessionId messageId).isSome = true := by
  unfold FileStorage.saveMessage FileStorage.getMessage
  simp [List.lookup]

/-- A blob write preserves readability of every key. -/
theorem getMessage_save_mono (fs : FileStorage) (sessionId messageId : Nat)
    (role : Role) (content : String) (toolUsed sources metadata : Option String)
    (now : Nat) (a b : Nat) (h : (fs.getMessage a b).isSome = true) :
    ((fs.saveMessage sessionId messageId role content toolUsed sources metadata
        now).getMessage a b).isSome = true := by
  unfold FileStorage.getMessage at h ⊢
  unfold FileStorage.saveMessage
  dsimp only
  rw [List.lookup]
  split
  · rfl
  · exact h

/-- C4.  `addMessage` writes the content blob before creating the metadata
row, so the recovery invariant (every message/summary row has a blob; the
reverse not required) holds at the intermediate state after the blob
write, at the state after the row INSERT, and at the final state; and when
the row creation fails (missing session) the final state is exactly the
input state plus the orphaned blob — the acceptable reverse violation. -/
theorem claim4_content_before_metadata : ∀ (st : EngineState) (sessionId messageId : Nat)
    (role : Role) (content : String) (toolUsed sources metadata : Option String)
    (now : Nat),
    storeInvariant st →
    (storeInvariant
        { db := st.db,
          fs := st.fs.saveMessage sessionId messageId role content toolUsed
                  sources metadata now } ∧
     storeInvariant
        { db := st.db.insertMessageRow sessionId
                  (SessionService.newMessageData sessionId messageId role content)
                  now,
          fs := st.fs.saveMessage sessionId messageId role content toolUsed
                  sources metadata now } ∧
     storeInvariant (SessionService.addMessage st sessionId messageId role content
        toolUsed sources metadata now).state ∧
     (st.db.sessionExists sessionId = false →
       (SessionService.addMessage st sessionId messageId role content toolUsed
          sources metadata now).state
         = { db := st.db,
             fs := st.fs.saveMessage sessionId messageId role content toolUsed
                     sources metadata now })) := by
  intro st sessionId messageId role content toolUsed sources metadata now hinv
  have part1 : storeInvariant
      { db := st.db,
        fs := st.fs.saveMessage sessionId messageId role content toolUsed
                sources metadata now } := by
    constructor
    · intro m hm
      exact getMessage_save_mono st.fs sessionId messageId role content toolUsed
        sources metadata now m.sessionId m.id (hinv.1 m hm)
    · intro s hs
      exact hinv.2 s hs
  have part2 : storeInvariant
      { db := st.db.insertMessageRow sessionId
                (SessionService.newMessageData sessionId messageId role content)
                now,
        fs := st.fs.saveMessage sessionId messageId role content toolUsed
                sources metadata now } := by
    constructor
    · intro m hm
      unfold Database.insertMessageRow at hm
      dsimp only at hm
      rcases List.mem_append.1 hm with hmem | hmem
      · exact getMessage_save_mono st.fs sessionId messageId role content toolUsed
          sources metadata now m.sessionId m.id (hinv.1 m hmem)
      · rw [List.mem_singleton] at hmem
        subst hmem
        exact getMessage_save_self st.fs sessionId messageId role content toolUsed
          sources metadata now
    · intro s hs
      exact hinv.2 s hs
  refine ⟨part1, part2, ?_, ?_⟩
  · unfold SessionService.addMessage
    dsimp only
    split
    · next e heq => exact part1
    · next db2 heq =>
      unfold Database.createMessage at heq
      split at heq
      · rw [Except.ok.injEq] at heq
        subst heq
        constructor
        · intro m hm
          exact part2.1 m hm
        · intro s hs
          exact part2.2 s hs
      · cases heq
  · intro hex
    unfold SessionService.addMessage
    dsimp only
    unfold Database.createMessage
    rw [hex]
    rfl

/-- Witness for C4: the invariant holds after appending a concrete message
to the concrete two-message session. -/
theorem claim4_content_before_metadata_witness :
    storeInvariant (SessionService.addMessage (sampleState 0 2) 0 9 Role.user
        "hello" none none none 7).state :=
  (claim4_content_before_metadata (sampleState 0 2) 0 9 Role.user "hello"
    none none none 7 (by decide)).2.2.1

/-- A session whose single metadata row has no content blob. -/
def missingBlobState : EngineState :=
  { db := { sessions := [mkSessionRow 0],
            messages := [{ id := 1, sessionId := 0, role := .user, filePath := "",
                           tokens := 0, isSummarized := false, createdAt := 10 }],
            summaries := [] },
    fs := { messageFiles := [], summaryFiles := [] } }

/-- Counterexample to C9.  In `missingBlobState` the session has one
unsummarized message whose blob is absent.  Message listing indeed
degrades to an empty content string, but the context build does not: it
silently drops the message from `activeMessages` (empty list, count 0)
instead of including it with empty content as the claim states.  Neither
path crashes. -/
theorem claim9_missing_content_counterexample :
    (missingBlobState.db.getUnsummarizedMessages 0).length = 1 ∧
    (SummarizerService.getSessionContext sessionConfig missingBlobState 0 0
        (Except.ok ("s", 1)) 100).outcome
      = Except.ok { summary := none, messages := [], hasSummary := false,
                    activeMessageCount := 0 } ∧
    SessionService.getMessages missingBlobState 0 50 none
      = [{ id := 1, role := Role.user, content := "", toolUsed := none,
           sources := none, createdAt := 10, isSummarized := false }] := by decide

/-- `filterMap` keeps exactly the entries whose image is present. -/
theorem length_filterMap_eq_countP {α β : Type} (f : α → Option β) (l : List α) :
    (l.filterMap f).length = l.countP (fun a => (f a).isSome) := by
  induction l with
  | nil => rfl
  | cons a l ih =>
    cases hfa : f a <;>
      simp [List.filterMap_cons, hfa, List.countP_cons, ih]

/-- C9 as amended.  A metadata row whose blob is absent never crashes a
read: message listing returns the row with an empty content string
(role falling back to the row's role), while the context build omits the
row entirely — `activeMessages` holds exactly the unsummarized rows whose
blob is present. -/
theorem claim9_missing_content_amended : ∀ (st : EngineState) (sessionId limit : Nat)
    (beforeId : Option Nat),
    (∀ ref ∈ st.db.getMessages sessionId limit beforeId,
      st.fs.getMessage sessionId ref.id = none →
        ({ id := ref.id, role := ref.role, content := "", toolUsed := none,
           sources := none, createdAt := ref.createdAt,
           isSummarized := ref.isSummarized } : ListedMessage)
          ∈ SessionService.getMessages st sessionId limit beforeId) ∧
    (∀ (cfg : SessionConfig) (now : Nat) (backendResp : Except Unit (String × Nat))
        (summaryId : Nat) (ctx : ContextPackage),
      (SummarizerService.getSessionContext cfg st sessionId now backendResp
          summaryId).outcome = Except.ok ctx →
      ctx.messages.length =
        ((SummarizerService.getSessionContext cfg st sessionId now backendResp
            summaryId).state.db.getUnsummarizedMessages sessionId).countP
          (fun m => ((SummarizerService.getSessionContext cfg st sessionId now
              backendResp summaryId).state.fs.getMessage sessionId m.id).isSome)) := by
  intro st sessionId limit beforeId
  constructor
  · intro ref href hnone
    unfold SessionService.getMessages
    refine List.mem_map.2 ⟨ref, href, ?_⟩
    rw [hnone]
    rfl
  · intro cfg now backendResp summaryId ctx hctx
    rw [getSessionContext_ok cfg st sessionId now backendResp summaryId ctx hctx]
    unfold SummarizerService.buildContextPackage
    dsimp only
    rw [length_filterMap_eq_countP]
    refine List.countP_congr ?_
    intro m _
    cases (SummarizerService.getSessionContext cfg st sessionId now backendResp
        summaryId).state.fs.getMessage sessionId m.id <;> simp

/-- Witness for the amended C9: in the concrete broken state, listing
returns the empty-content entry for row 1, and the context package holds
exactly the rows with blobs (here none). -/
theorem claim9_missing_content_amended_witness :
    ({ id := 1, role := Role.user, content := "", toolUsed := none,
       sources := none, createdAt := 10, isSummarized := false } : ListedMessage)
      ∈ SessionService.getMessages missingBlobState 0 50 none :=
  (claim9_missing_content_amended missingBlobState 0 50 none).1
    { id := 1, sessionId := 0, role := .user, filePath := "", tokens := 0,
      isSummarized := false, createdAt := 10 } (by decide) (by decide)

/-- A page is never longer than the LIMIT. -/
theorem page_length (rows : List MessageRec) (limit : Nat) :
    (((rows.insertionSort msgDescLe).take limit).reverse).length ≤ limit := by
  rw [List.length_reverse, List.length_take]
  exact min_le_left _ _

/-- Page entries come from the selected row set. -/
theorem page_mem (rows : List MessageRec) (limit : Nat) (m : MessageRec)
    (hm : m ∈ ((rows.insertionSort msgDescLe).take limit).reverse) : m ∈ rows := by
  rw [List.mem_reverse] at hm
  exact (List.mem_insertionSort msgDescLe).1 (List.mem_of_mem_take hm)

/-- After the final `.reverse()` the page is in ascending creation order. -/
theorem page_sorted (rows : List MessageRec) (limit : Nat) :
    List.Pairwise (fun a b => a.createdAt ≤ b.createdAt)
      (((rows.insertionSort msgDescLe).take limit).reverse) := by
  rw [List.pairwise_reverse]
  have hs : List.Pairwise msgDescLe (rows.insertionSort msgDescLe) :=
    List.sorted_insertionSort msgDescLe rows
  have ht : List.Pairwise msgDescLe ((rows.insertionSort msgDescLe).take limit) :=
    hs.sublist (List.take_sublist limit _)
  exact ht.imp (fun h => h)

/-- Newest-first selection: any selected row left out of the page is no
newer than every row in it. -/
theorem page_newest (rows : List MessageRec) (limit : Nat) (m : MessageRec)
    (hm : m ∈ rows)
    (hnot : m ∉ ((rows.insertionSort msgDescLe).take limit).reverse) :
    ∀ r ∈ ((rows.insertionSort msgDescLe).take limit).reverse,
      m.createdAt ≤ r.createdAt := by
  intro r hr
  rw [List.mem_reverse] at hr hnot
  have hsorted : List.Pairwise msgDescLe (rows.insertionSort msgDescLe) :=
    List.sorted_insertionSort msgDescLe rows
  have hsplit := List.take_append_drop limit (rows.insertionSort msgDescLe)
  have hcross := (List.pairwise_append.1 (hsplit.symm ▸ hsorted)).2.2
  have hmem : m ∈ rows.insertionSort msgDescLe :=
    (List.mem_insertionSort msgDescLe).2 hm
  have hdrop : m ∈ (rows.insertionSort msgDescLe).drop limit := by
    rcases List.mem_append.1 (hsplit ▸ hmem) with h | h
    · exact absurd h hnot
    · exact h
  exact hcross r hr m hdrop

/-- C8.  `getMessages` returns at most `limit` rows of the session,
ordered oldest-first, chosen as the newest eligible rows (any eligible row
not in the page is no newer than each returned row); with a `beforeId`
cursor resolving to row `mb`, eligibility additionally requires
`createdAt` strictly below `mb.createdAt`. -/
theorem claim8_pagination :
    (∀ (db : Database) (sessionId limit : Nat),
      (db.getMessages sessionId limit none).length ≤ limit ∧
      (∀ m ∈ db.getMessages sessionId limit none,
        m ∈ db.messages ∧ m.sessionId = sessionId) ∧
      List.Pairwise (fun a b => a.createdAt ≤ b.createdAt)
        (db.getMessages sessionId limit none) ∧
      (∀ m ∈ db.messages, m.sessionId = sessionId →
        m ∉ db.getMessages sessionId limit none →
        ∀ r ∈ db.getMessages sessionId limit none, m.createdAt ≤ r.createdAt)) ∧
    (∀ (db : Database) (sessionId limit cursor : Nat) (mb : MessageRec),
      db.messages.find? (fun x => x.id == cursor) = some mb →
      ((db.getMessages sessionId limit (some cursor)).length ≤ limit ∧
       (∀ m ∈ db.getMessages sessionId limit (some cursor),
         m ∈ db.messages ∧ m.sessionId = sessionId ∧ m.createdAt < mb.createdAt) ∧
       List.Pairwise (fun a b => a.createdAt ≤ b.createdAt)
         (db.getMessages sessionId limit (some cursor)) ∧
       (∀ m ∈ db.messages, m.sessionId = sessionId → m.createdAt < mb.createdAt →
         m ∉ db.getMessages sessionId limit (some cursor) →
         ∀ r ∈ db.getMessages sessionId limit (some cursor),
           m.createdAt ≤ r.createdAt))) := by
  constructor
  · intro db sessionId limit
    have hred : db.getMessages sessionId limit none
        = (((db.messages.filter (fun m => m.sessionId == sessionId
            && true)).insertionSort msgDescLe).take limit).reverse := rfl
    rw [hred]
    refine ⟨page_length _ _, ?_, page_sorted _ _, ?_⟩
    · intro m hm
      have hrow := page_mem _ _ _ hm
      rw [List.mem_filter] at hrow
      obtain ⟨h1, h2⟩ := hrow
      simp at h2
      exact ⟨h1, h2⟩
    · intro m hm hsid hnot r hr
      refine page_newest _ limit m ?_ hnot r hr
      rw [List.mem_filter]
      refine ⟨hm, ?_⟩
      simp [hsid]
  · intro db sessionId limit cursor mb hfind
    have hred : db.getMessages sessionId limit (some cursor)
        = (((db.messages.filter (fun m => m.sessionId == sessionId
            && decide (m.createdAt < mb.createdAt))).insertionSort
            msgDescLe).take limit).reverse := by
      unfold Database.getMessages
      dsimp only
      simp only [hfind]
    rw [hred]
    refine ⟨page_length _ _, ?_, page_sorted _ _, ?_⟩
    · intro m hm
      have hrow := page_mem _ _ _ hm
      rw [List.mem_filter] at hrow
      obtain ⟨h1, h2⟩ := hrow
      simp at h2
      exact ⟨h1, h2.1, h2.2⟩
    · intro m hm hsid hlt hnot r hr
      refine page_newest _ limit m ?_ hnot r hr
      rw [List.mem_filter]
      refine ⟨hm, ?_⟩
      simp [hsid, hlt]

/-- Witness for C8: a concrete page of 2 from a 4-message session with the
cursor on message 3. -/
theorem claim8_pagination_witness :
    ((sampleState 0 4).db.getMessages 0 2 (some 3)).length ≤ 2 ∧
    List.Pairwise (fun a b => a.createdAt ≤ b.createdAt)
      ((sampleState 0 4).db.getMessages 0 2 (some 3)) :=
  ⟨(claim8_pagination.2 (sampleState 0 4).db 0 2 3 (mkAssistantMsg 2) (by decide)).1,
   (claim8_pagination.2 (sampleState 0 4).db 0 2 3 (mkAssistantMsg 2) (by decide)).2.2.1⟩
